import Mathlib

/-! LTC2943 I2C access layer (`src/src/lt2943_api.cpp`)

A shallow embedding of the driver class `lt2943_api`: the register codec
(`chip_adc_modes`, `handle_adc_mode`, `handle_temp_alert`, `handle_vol_alert`),
the four public operations and the constructor.

Modelling conventions.

* `uint8_t` values are natural numbers below 256; `int` values are integers.
* The five functions `i2cInit`, `i2cDeinit`, `i2cIsInitialized`, `i2cRead`,
  `i2cWrite` are only declared in the source (their bodies live in an external
  driver), so they are a parameter: an `I2cDriver σ` is an arbitrary
  deterministic state machine over a bus state `σ`.
* Every call made to the driver is appended, with its arguments and its
  result, to a trace, so that statements about which calls an operation makes
  can be expressed.
* The source passes `dataSize = 8` together with the address of the single
  byte `i2c_cache`; the model follows that one byte only.
* `fprintf` output is not modelled.
-/

namespace Ltc2943

/-! ## Constants -/

/-- Constant `LTC2943_I2C_ADDRESS`, defined as `0x64` in the source. -/
def LTC2943_I2C_ADDRESS : Nat := 0x64

/-- Constant `LTC2943_STATUS_REG`, defined as `0x00` in the source. -/
def LTC2943_STATUS_REG : Nat := 0x00

/-- Constant `LTC2943_CONTROL_REG`, defined as `0x01` in the source. -/
def LTC2943_CONTROL_REG : Nat := 0x01

/-- Constant `LTC2943_AUTOMATIC_MODE`, defined as `0xC0` in the source. -/
def LTC2943_AUTOMATIC_MODE : Nat := 0xC0

/-- Constant `LTC2943_SCAN_MODE`, defined as `0x80` in the source. -/
def LTC2943_SCAN_MODE : Nat := 0x80

/-- Constant `LTC2943_MANUAL_MODE`, defined as `0x40` in the source. -/
def LTC2943_MANUAL_MODE : Nat := 0x40

/-- Constant `LTC2943_SLEEP_MODE`, defined as `0x00` in the source. -/
def LTC2943_SLEEP_MODE : Nat := 0x00

/-- Constant `LTC2943_TEMP_ALERT`, defined as `0x10` in the source. -/
def LTC2943_TEMP_ALERT : Nat := 0x10

/-- Constant `LTC2943_VOL_ALERT`, defined as `0x02` in the source. -/
def LTC2943_VOL_ALERT : Nat := 0x02

/-! ## Data model -/

/-- The enumeration `enum adc_modes`, with its count sentinel `MODE_CNT`. -/
inductive adc_modes where
  | AUTO_MODE
  | SCAN_MODE
  | MAN_MODE
  | SLEEP_MODE
  | MODE_CNT
  deriving DecidableEq

/-- The integer value of an enumerator (C numbering from zero). -/
def adc_modes.toNat : adc_modes → Nat
  | .AUTO_MODE => 0
  | .SCAN_MODE => 1
  | .MAN_MODE => 2
  | .SLEEP_MODE => 3
  | .MODE_CNT => 4

/-- The cache `struct lt2943`. -/
structure lt2943 where
  adc_mode : Int
  temp_alert : Int
  volt_alert : Int
  deriving DecidableEq

/-! ## Register codec -/

/-- The table `chip_adc_modes[]`, indexed by the enumerators `AUTO_MODE` .. `SLEEP_MODE`. -/
def chip_adc_modes : List Nat :=
  [LTC2943_AUTOMATIC_MODE, LTC2943_SCAN_MODE, LTC2943_MANUAL_MODE, LTC2943_SLEEP_MODE]

/-- The loop `for (i = ..; i < MODE_CNT; i++) if (mode & chip_adc_modes[i]) return i;`
followed by `return -1`, started at index `i` with `left = MODE_CNT - i` iterations to go. -/
def handle_adc_mode_loop (mode : Nat) : Nat → Nat → Int
  | _, 0 => -1
  | i, left + 1 =>
    if mode &&& chip_adc_modes.getD i 0 ≠ 0 then (i : Int)
    else handle_adc_mode_loop mode (i + 1) left

/-- Method `int handle_adc_mode(uint8_t mode)`. -/
def handle_adc_mode (mode : Nat) : Int :=
  handle_adc_mode_loop mode adc_modes.AUTO_MODE.toNat
    (adc_modes.MODE_CNT.toNat - adc_modes.AUTO_MODE.toNat)

/-- Method `int handle_temp_alert(uint8_t status)`. -/
def handle_temp_alert (status : Nat) : Int :=
  if status &&& LTC2943_TEMP_ALERT ≠ 0 then 1 else 0

/-- Method `int handle_vol_alert(uint8_t status)`. -/
def handle_vol_alert (status : Nat) : Int :=
  if status &&& LTC2943_VOL_ALERT ≠ 0 then 1 else 0

/-- The decoder as the specification words it: the first mode, in the order
Automatic, Scan, Manual, Sleep, whose bit pattern has a non-zero bitwise AND
with `raw`; the failure value `-1` when there is none. -/
def decode_mode_first_match (raw : Nat) : Int :=
  match [(adc_modes.AUTO_MODE, 0xC0), (adc_modes.SCAN_MODE, 0x80),
         (adc_modes.MAN_MODE, 0x40), (adc_modes.SLEEP_MODE, 0x00)].find?
        (fun mp => decide (raw &&& mp.2 ≠ 0)) with
  | some mp => (mp.1.toNat : Int)
  | none => -1

/-! ## The external I2C driver and the call trace -/

/-- One call to the external driver, with its arguments and its result. For
`i2cRead`, `byte` is the content of the one-byte buffer after the call; for
`i2cWrite`, `src` is the content of the one-byte buffer handed over. -/
inductive Call where
  | i2cInit (ret : Bool)
  | i2cDeinit (ret : Bool)
  | i2cIsInitialized (ret : Bool)
  | i2cRead (address : Nat) (dataSize : Nat) (ret : Bool) (byte : Nat)
  | i2cWrite (address : Nat) (src : Nat) (dataSize : Nat) (ret : Bool)
  deriving DecidableEq

/-- The five functions declared, but not defined, by the source: `bool i2cInit(void)`,
`bool i2cDeinit(void)`, `bool i2cIsInitialized(void)`,
`bool i2cRead(uint8_t address, uint8_t *pDst, uint16_t dataSize)` and
`bool i2cWrite(uint8_t address, const uint8_t *pSrc, uint16_t dataSize)`,
as transitions over an arbitrary bus state `σ`. `i2cRead address buf dataSize`
receives the current content `buf` of the destination byte and returns its
content after the call next to the result. -/
structure I2cDriver (σ : Type) where
  i2cInit : σ → Bool × σ
  i2cDeinit : σ → Bool × σ
  i2cIsInitialized : σ → Bool × σ
  i2cRead : Nat → Nat → Nat → σ → (Bool × Nat) × σ
  i2cWrite : Nat → Nat → Nat → σ → Bool × σ

/-- Everything an operation can read or change: the state of the external bus,
the calls made to it so far (oldest first) and the public member
`struct lt2943 lt2943` of the driver object. -/
structure World (σ : Type) where
  bus : σ
  trace : List Call
  lt2943 : lt2943

variable {σ : Type}

/-- A call of `i2cIsInitialized()`, recorded in the trace. -/
def call_i2cIsInitialized (d : I2cDriver σ) (w : World σ) : Bool × World σ :=
  let r := d.i2cIsInitialized w.bus
  (r.1, { w with bus := r.2, trace := w.trace ++ [Call.i2cIsInitialized r.1] })

/-- A call of `i2cInit()`, recorded in the trace. -/
def call_i2cInit (d : I2cDriver σ) (w : World σ) : Bool × World σ :=
  let r := d.i2cInit w.bus
  (r.1, { w with bus := r.2, trace := w.trace ++ [Call.i2cInit r.1] })

/-- A call of `i2cDeinit()`, recorded in the trace. -/
def call_i2cDeinit (d : I2cDriver σ) (w : World σ) : Bool × World σ :=
  let r := d.i2cDeinit w.bus
  (r.1, { w with bus := r.2, trace := w.trace ++ [Call.i2cDeinit r.1] })

/-- A call of `i2cWrite(address, &i2c_cache, dataSize)`, recorded in the trace. -/
def call_i2cWrite (d : I2cDriver σ) (address i2c_cache dataSize : Nat) (w : World σ) :
    Bool × World σ :=
  let r := d.i2cWrite address i2c_cache dataSize w.bus
  (r.1, { w with bus := r.2,
                 trace := w.trace ++ [Call.i2cWrite address i2c_cache dataSize r.1] })

/-- A call of `i2cRead(address, &i2c_cache, dataSize)`, recorded in the trace.
The second component of the result is the new content of the `uint8_t`
variable `i2c_cache`. -/
def call_i2cRead (d : I2cDriver σ) (address i2c_cache dataSize : Nat) (w : World σ) :
    (Bool × Nat) × World σ :=
  let r := d.i2cRead address i2c_cache dataSize w.bus
  ((r.1.1, r.1.2 % 256),
   { w with bus := r.2,
            trace := w.trace ++ [Call.i2cRead address dataSize r.1.1 (r.1.2 % 256)] })

/-! ## The operations -/

/-- The code at the label `end:` shared by every operation:
`if (i2cIsInitialized() && i2cDeinit()) fprintf(..); return ret;`. -/
def end_label (d : I2cDriver σ) (ret : Int) (w : World σ) : Int × World σ :=
  let a := call_i2cIsInitialized d w
  if a.1 then
    let b := call_i2cDeinit d a.2
    (ret, b.2)
  else
    (ret, a.2)

/-- Method `int get_adc_mode()`. -/
def get_adc_mode (d : I2cDriver σ) (w : World σ) : Int × World σ :=
  let ret : Int := -1
  let a := call_i2cIsInitialized d w
  if !a.1 then end_label d ret a.2 else
  let b := call_i2cInit d a.2
  if !b.1 then end_label d ret b.2 else
  let i2c_cache := LTC2943_CONTROL_REG
  let c := call_i2cWrite d LTC2943_I2C_ADDRESS i2c_cache 8 b.2
  if !c.1 then end_label d ret c.2 else
  let i2c_cache := LTC2943_CONTROL_REG
  let e := call_i2cRead d LTC2943_I2C_ADDRESS i2c_cache 8 c.2
  if !e.1.1 then end_label d ret e.2 else
  let i2c_cache := e.1.2
  let w5 : World σ :=
    { e.2 with lt2943 := { e.2.lt2943 with adc_mode := handle_adc_mode i2c_cache } }
  if w5.lt2943.adc_mode < 0 then end_label d ret w5 else
  let ret : Int := 0
  end_label d ret w5

/-- Method `int get_vol_alert_pend()`. The source spells the member written
here `vol_alert`; the struct declares it as `volt_alert`. -/
def get_vol_alert_pend (d : I2cDriver σ) (w : World σ) : Int × World σ :=
  let ret : Int := -1
  let a := call_i2cIsInitialized d w
  if !a.1 then end_label d ret a.2 else
  let b := call_i2cInit d a.2
  if !b.1 then end_label d ret b.2 else
  let i2c_cache := LTC2943_STATUS_REG
  let c := call_i2cWrite d LTC2943_I2C_ADDRESS i2c_cache 8 b.2
  if !c.1 then end_label d ret c.2 else
  let i2c_cache := LTC2943_STATUS_REG
  let e := call_i2cRead d LTC2943_I2C_ADDRESS i2c_cache 8 c.2
  let i2c_cache := e.1.2
  let w5 : World σ :=
    { e.2 with lt2943 := { e.2.lt2943 with volt_alert := handle_vol_alert i2c_cache } }
  let ret : Int := w5.lt2943.volt_alert
  end_label d ret w5

/-- Method `int get_temp_alert_pend()`. -/
def get_temp_alert_pend (d : I2cDriver σ) (w : World σ) : Int × World σ :=
  let ret : Int := -1
  let a := call_i2cIsInitialized d w
  if !a.1 then end_label d ret a.2 else
  let b := call_i2cInit d a.2
  if !b.1 then end_label d ret b.2 else
  let i2c_cache := LTC2943_STATUS_REG
  let c := call_i2cWrite d LTC2943_I2C_ADDRESS i2c_cache 8 b.2
  if !c.1 then end_label d ret c.2 else
  let i2c_cache := LTC2943_STATUS_REG
  let e := call_i2cRead d LTC2943_I2C_ADDRESS i2c_cache 8 c.2
  let i2c_cache := e.1.2
  let w5 : World σ :=
    { e.2 with lt2943 := { e.2.lt2943 with temp_alert := handle_temp_alert i2c_cache } }
  let ret : Int := w5.lt2943.temp_alert
  end_label d ret w5

/-- Method `int set_adc_mode(enum adc_modes mode)`. The result is `none` when
the lookup `chip_adc_modes[mode]` is reached with an index outside the table
(the enumerator `MODE_CNT`), which the language leaves undefined. -/
def set_adc_mode (d : I2cDriver σ) (mode : adc_modes) (w : World σ) :
    Option (Int × World σ) :=
  let ret : Int := -1
  let i2c_cache := LTC2943_CONTROL_REG
  let a := call_i2cIsInitialized d w
  if !a.1 then some (end_label d ret a.2) else
  let b := call_i2cInit d a.2
  if !b.1 then some (end_label d ret b.2) else
  let c := call_i2cWrite d LTC2943_I2C_ADDRESS i2c_cache 8 b.2
  match chip_adc_modes[mode.toNat]? with
  | none => none
  | some v =>
    let i2c_cache := v % 256
    let e := call_i2cWrite d LTC2943_I2C_ADDRESS i2c_cache 8 c.2
    let ret : Int := 0
    some (end_label d ret e.2)

/-- The constructor `lt2943_api()`, whose body ends in `return ret;`. The
member `lt2943` is not initialised by the source, so the world it starts from
carries an arbitrary one. -/
def lt2943_api (d : I2cDriver σ) (w : World σ) : Int × World σ :=
  let ret : Int := -1
  let a := call_i2cIsInitialized d w
  if !a.1 then end_label d ret a.2 else
  let b := call_i2cInit d a.2
  if !b.1 then end_label d ret b.2 else
  let g := get_adc_mode d b.2
  if g.1 ≠ 0 then end_label d ret g.2 else
  let i2c_cache := LTC2943_CONTROL_REG
  let c := call_i2cWrite d LTC2943_I2C_ADDRESS i2c_cache 8 g.2
  if !c.1 then end_label d ret c.2 else
  let i2c_cache := LTC2943_CONTROL_REG
  let e := call_i2cRead d LTC2943_I2C_ADDRESS i2c_cache 8 c.2
  if !e.1.1 then end_label d ret e.2 else
  let i2c_cache := e.1.2
  let w5 : World σ :=
    { e.2 with lt2943 := { e.2.lt2943 with volt_alert := handle_temp_alert i2c_cache } }
  let w6 : World σ :=
    { w5 with lt2943 := { w5.lt2943 with temp_alert := handle_temp_alert i2c_cache } }
  let ret : Int := 0
  end_label d ret w6

/-! ## Observations on traces -/

/-- The calls an operation added to the trace, given the world before and after. -/
def callsSince (w w' : World σ) : List Call :=
  w'.trace.drop w.trace.length

/-- Recogniser for calls of `i2cDeinit`. -/
def Call.isDeinit : Call → Bool
  | .i2cDeinit _ => true
  | _ => false

/-- Recogniser for calls of `i2cInit`. -/
def Call.isInit : Call → Bool
  | .i2cInit _ => true
  | _ => false

/-- Recogniser for the register transactions `i2cRead` and `i2cWrite`. -/
def Call.isTransaction : Call → Bool
  | .i2cRead _ _ _ _ => true
  | .i2cWrite _ _ _ _ => true
  | _ => false

/-- Number of `i2cDeinit` calls in a trace. -/
def deinitCount (t : List Call) : Nat :=
  t.countP Call.isDeinit

/-- The answer of the last `i2cIsInitialized` call in a trace, if there is one. -/
def lastIsInitialized : List Call → Option Bool
  | [] => none
  | c :: t =>
    match lastIsInitialized t with
    | some r => some r
    | none =>
      match c with
      | .i2cIsInitialized r => some r
      | _ => none

/-- The release discipline the code at `end:` implements, as a property of
the calls of one operation: the last `i2cIsInitialized` check answered true and
`i2cDeinit` was called exactly once, or it answered false and `i2cDeinit` was
not called. -/
def releasedByEndCheck (t : List Call) : Prop :=
  (lastIsInitialized t = some true ∧ deinitCount t = 1) ∨
  (lastIsInitialized t = some false ∧ deinitCount t = 0)

instance releasedByEndCheck.decidable (t : List Call) : Decidable (releasedByEndCheck t) := by
  unfold releasedByEndCheck
  infer_instance

/-- The recorded call `c` is what the driver `d` does from bus state `s`: the
function named by `c`, applied to the recorded arguments in state `s`, gives
the recorded result and leaves the bus in state `s'`. For `i2cRead` the
content of the buffer before the call is not recorded, so some content
accounts for the call. -/
def Call.madeBy (d : I2cDriver σ) (c : Call) (s s' : σ) : Prop :=
  match c with
  | .i2cInit r => d.i2cInit s = (r, s')
  | .i2cDeinit r => d.i2cDeinit s = (r, s')
  | .i2cIsInitialized r => d.i2cIsInitialized s = (r, s')
  | .i2cRead a n r b =>
    ∃ buf, (d.i2cRead a buf n s).1.1 = r ∧ (d.i2cRead a buf n s).1.2 % 256 = b ∧
      (d.i2cRead a buf n s).2 = s'
  | .i2cWrite a src n r => d.i2cWrite a src n s = (r, s')

/-- The calls `t`, made one after the other from bus state `s`, are what the
driver does and leave the bus in state `s'`. -/
def isRun (d : I2cDriver σ) : List Call → σ → σ → Prop
  | [], s, s' => s = s'
  | c :: t, s, s' => ∃ m, c.madeBy d s m ∧ isRun d t m s'

/-- Between the worlds `w` and `wb` the trace grew by calls that the driver
really made from the bus state of `w` to the bus state of `wb`, none of them
a call of `i2cDeinit`. -/
def noDeinitRun (d : I2cDriver σ) (w wb : World σ) : Prop :=
  ∃ body, wb.trace = w.trace ++ body ∧ deinitCount body = 0 ∧ isRun d body w.bus wb.bus

/-- Between the worlds `w` and `w'` the operation ended with the check at
`end:`. Its calls are a run `body` of the driver without any `i2cDeinit`,
leading to a bus state `s`, followed by the check `i2cIsInitialized()` made in
`s` and, exactly when that check answered true, by one call of `i2cDeinit()`;
nothing follows, and the bus is left in the state these last calls produce. -/
def endsWithEndCheck (d : I2cDriver σ) (w w' : World σ) : Prop :=
  ∃ (body : List Call) (s : σ),
    deinitCount body = 0 ∧ isRun d body w.bus s ∧
    (((d.i2cIsInitialized s).1 = false ∧
        callsSince w w' = body ++ [Call.i2cIsInitialized false] ∧
        w'.bus = (d.i2cIsInitialized s).2) ∨
     ((d.i2cIsInitialized s).1 = true ∧
        callsSince w w' = body ++ [Call.i2cIsInitialized true,
          Call.i2cDeinit (d.i2cDeinit (d.i2cIsInitialized s).2).1] ∧
        w'.bus = (d.i2cDeinit (d.i2cIsInitialized s).2).2))

/-! ## A scripted bus -/

/-- A bus whose answers are fixed in advance: each call consumes the next
entry `(ret, byte)` of the script and returns `ret`; a read also puts `byte` in
the buffer. With the script used up every call fails and a read leaves the
buffer as it was. -/
def scriptedDriver : I2cDriver (List (Bool × Nat)) where
  i2cInit := fun s => ((s.headD (false, 0)).1, s.tail)
  i2cDeinit := fun s => ((s.headD (false, 0)).1, s.tail)
  i2cIsInitialized := fun s => ((s.headD (false, 0)).1, s.tail)
  i2cRead := fun _ buf _ s => (s.headD (false, buf), s.tail)
  i2cWrite := fun _ _ _ s => ((s.headD (false, 0)).1, s.tail)

/-- The world in which a scripted bus starts: no call made yet, and a cache
holding the given values. -/
def scriptedWorld (script : List (Bool × Nat)) (cache : lt2943) : World (List (Bool × Nat)) :=
  { bus := script, trace := [], lt2943 := cache }

/-- A cache content to start concrete runs from: mode `SLEEP_MODE`, no alert. -/
def sleepingCache : lt2943 :=
  { adc_mode := 3, temp_alert := 0, volt_alert := 0 }

/-- Script of a bus on which the six calls of a successful `get_adc_mode` all
answer true and the read delivers the byte `0xC0`. -/
def scriptReadAuto : List (Bool × Nat) :=
  [(true, 0), (true, 0), (true, 0), (true, 0xC0), (true, 0), (true, 0)]

/-- Script of a bus on which the six calls of a successful `set_adc_mode` all
answer true. -/
def scriptAllTrue : List (Bool × Nat) :=
  [(true, 0), (true, 0), (true, 0), (true, 0), (true, 0), (true, 0)]

/-- Script of a bus on which the acquisition test passes, the next two calls
(the two writes of `set_adc_mode`) fail and the calls at `end:` succeed. -/
def scriptWritesFail : List (Bool × Nat) :=
  [(true, 0), (true, 0), (false, 0), (false, 0), (true, 0), (true, 0)]

/-- Script of a bus on which the acquisition test passes, the write of the
register address succeeds, the read fails leaving the buffer as it was (the
register address `0x00` or `0x01` the code put there; the entry says `0x00`),
and the calls at `end:` succeed. -/
def scriptReadFails : List (Bool × Nat) :=
  [(true, 0), (true, 0), (true, 0), (false, 0), (true, 0), (true, 0)]

/-- Script of a bus on which the twelve calls of a successful construction all
answer true; the read inside `get_adc_mode` delivers `0xC0` and the
constructor's own read delivers `0x12`. -/
def scriptConstruction : List (Bool × Nat) :=
  [(true, 0), (true, 0),
   (true, 0), (true, 0), (true, 0), (true, 0xC0), (true, 0), (true, 0),
   (true, 0), (true, 0x12), (true, 0), (true, 0)]

/-- State of a simulated bus: whether it is initialised, and the byte its
device answers every read with. -/
structure SimBus where
  initialized : Bool
  reg : Nat
  deriving DecidableEq

/-- A simulated, well-behaved bus: `i2cInit` and `i2cDeinit` always succeed and
set, respectively clear, the flag that `i2cIsInitialized` reports; a
transaction succeeds exactly when the bus is initialised, and a successful read
delivers `reg`. -/
def simulatedDriver : I2cDriver SimBus where
  i2cInit := fun s => (true, { s with initialized := true })
  i2cDeinit := fun s => (true, { s with initialized := false })
  i2cIsInitialized := fun s => (s.initialized, s)
  i2cRead := fun _ buf _ s => ((s.initialized, if s.initialized then s.reg else buf), s)
  i2cWrite := fun _ _ _ s => (s.initialized, s)

/-- The world in which a simulated bus starts: no call made yet. -/
def simulatedWorld (bus : SimBus) (cache : lt2943) : World SimBus :=
  { bus := bus, trace := [], lt2943 := cache }

/-! ## The register codec -/

/-- A byte that shares no bit with a pattern `p` shares none with a pattern
`q` contained in `p`. -/
theorem and_eq_zero_of_subpattern (raw p q : Nat) (hq : p &&& q = q)
    (h : raw &&& p = 0) : raw &&& q = 0 := by
  rw [← hq, ← Nat.and_assoc, h, Nat.zero_and]

/-- The decoder only ever answers `AUTO_MODE` (0) or the failure value `-1`:
a byte with any bit of `0x80` or `0x40` set already matches the first pattern `0xC0`. -/
theorem handle_adc_mode_range (raw : Nat) :
    handle_adc_mode raw = 0 ∨ handle_adc_mode raw = -1 := by
  by_cases h : raw &&& 0xC0 = 0
  · have h80 : raw &&& 0x80 = 0 := and_eq_zero_of_subpattern raw 0xC0 0x80 (by decide) h
    have h40 : raw &&& 0x40 = 0 := and_eq_zero_of_subpattern raw 0xC0 0x40 (by decide) h
    right
    simp [handle_adc_mode, handle_adc_mode_loop, chip_adc_modes, adc_modes.toNat,
      LTC2943_AUTOMATIC_MODE, LTC2943_SCAN_MODE, LTC2943_MANUAL_MODE, LTC2943_SLEEP_MODE,
      h, h80, h40]
  · left
    simp [handle_adc_mode, handle_adc_mode_loop, chip_adc_modes, adc_modes.toNat,
      LTC2943_AUTOMATIC_MODE, h]

/-- C1, evaluated on the code: the encodings of Scan (`0x80`) and Manual
(`0x40`) both decode to `AUTO_MODE` (0), not to `SCAN_MODE` (1) and `MAN_MODE`
(2); only the Automatic encoding `0xC0` decodes to its own mode. -/
theorem handle_adc_mode_scan_manual_decode_auto :
    chip_adc_modes[adc_modes.AUTO_MODE.toNat]? = some 0xC0 ∧
    handle_adc_mode 0xC0 = (adc_modes.AUTO_MODE.toNat : Int) ∧
    chip_adc_modes[adc_modes.SCAN_MODE.toNat]? = some 0x80 ∧
    handle_adc_mode 0x80 = (adc_modes.AUTO_MODE.toNat : Int) ∧
    handle_adc_mode 0x80 ≠ (adc_modes.SCAN_MODE.toNat : Int) ∧
    chip_adc_modes[adc_modes.MAN_MODE.toNat]? = some 0x40 ∧
    handle_adc_mode 0x40 = (adc_modes.AUTO_MODE.toNat : Int) ∧
    handle_adc_mode 0x40 ≠ (adc_modes.MAN_MODE.toNat : Int) := by
  decide

/-- C2: for every byte `raw`, `handle_adc_mode raw` is the first-match decoder
of the specification (first mode in the order Automatic, Scan, Manual, Sleep
whose pattern has a non-zero AND with `raw`, else `-1`); `0xC8` decodes to
Automatic and the Sleep encoding `0x00` is a decode failure. -/
theorem handle_adc_mode_eq_first_match :
    (∀ raw : Nat, handle_adc_mode raw = decode_mode_first_match raw) ∧
    handle_adc_mode 0xC8 = (adc_modes.AUTO_MODE.toNat : Int) ∧
    handle_adc_mode 0x00 = -1 := by
  refine ⟨fun raw => ?_, by decide, by decide⟩
  simp only [handle_adc_mode, handle_adc_mode_loop, decode_mode_first_match, chip_adc_modes,
    adc_modes.toNat, LTC2943_AUTOMATIC_MODE, LTC2943_SCAN_MODE, LTC2943_MANUAL_MODE,
    LTC2943_SLEEP_MODE, List.find?, List.getD_cons_zero, List.getD_cons_succ]
  by_cases h0 : raw &&& 0xC0 = 0 <;> by_cases h1 : raw &&& 0x80 = 0 <;>
    by_cases h2 : raw &&& 0x40 = 0 <;> simp [h0, h1, h2]

/-- C3: for every status byte `s`, `handle_temp_alert s` is 1 when
`s AND 0x10` is non-zero and 0 otherwise, `handle_vol_alert s` is 1 when
`s AND 0x02` is non-zero and 0 otherwise; flipping the voltage bit leaves the
temperature result unchanged and flipping the temperature bit leaves the
voltage result unchanged; the byte `0x12` gives 1 for both. -/
theorem alert_decoders_independent :
    (∀ s : Nat, handle_temp_alert s = if s &&& 0x10 ≠ 0 then 1 else 0) ∧
    (∀ s : Nat, handle_vol_alert s = if s &&& 0x02 ≠ 0 then 1 else 0) ∧
    (∀ s : Nat, handle_temp_alert (s ^^^ 0x02) = handle_temp_alert s) ∧
    (∀ s : Nat, handle_vol_alert (s ^^^ 0x10) = handle_vol_alert s) ∧
    handle_temp_alert 0x12 = 1 ∧ handle_vol_alert 0x12 = 1 := by
  refine ⟨fun s => rfl, fun s => rfl, fun s => ?_, fun s => ?_, by decide, by decide⟩
  · unfold handle_temp_alert LTC2943_TEMP_ALERT
    rw [Nat.and_xor_distrib_right, show (0x02 : Nat) &&& 0x10 = 0 from by decide, Nat.xor_zero]
  · unfold handle_vol_alert LTC2943_VOL_ALERT
    rw [Nat.and_xor_distrib_right, show (0x10 : Nat) &&& 0x02 = 0 from by decide, Nat.xor_zero]

/-! ## The operations: shared facts -/

/-- The code at `end:` returns the value of `ret` it was reached with. -/
theorem end_label_fst (d : I2cDriver σ) (ret : Int) (w : World σ) :
    (end_label d ret w).1 = ret := by
  simp only [end_label]
  split <;> rfl

/-- The code at `end:` does not write the cache. -/
theorem end_label_lt2943 (d : I2cDriver σ) (ret : Int) (w : World σ) :
    (end_label d ret w).2.lt2943 = w.lt2943 := by
  simp only [end_label, call_i2cIsInitialized, call_i2cDeinit]
  split <;> rfl

/-- The calls made at `end:`: the check `i2cIsInitialized()`, followed by
`i2cDeinit()` exactly when the check answered true. -/
theorem end_label_trace (d : I2cDriver σ) (ret : Int) (w : World σ) :
    (end_label d ret w).2.trace =
      w.trace ++
        (if (d.i2cIsInitialized w.bus).1 then
          [Call.i2cIsInitialized true,
           Call.i2cDeinit (d.i2cDeinit (d.i2cIsInitialized w.bus).2).1]
        else [Call.i2cIsInitialized false]) := by
  unfold end_label call_i2cIsInitialized call_i2cDeinit
  cases h : (d.i2cIsInitialized w.bus).1 <;> simp [h]

/-- C7: when the acquisition test passes (`i2cIsInitialized` and `i2cInit`
both answer true), the write of the control-register address and the read
succeed and the read delivers the byte `b`, then `get_adc_mode` returns 0 and
caches `handle_adc_mode b` if that is a mode (non-negative), returns `-1` if
`b` matches none of the patterns, and returns 0 exactly when the decode
succeeds. -/
theorem get_adc_mode_end_to_end (d : I2cDriver σ) (w : World σ) (s1 s2 s3 s4 : σ) (b : Nat)
    (hb : b < 256)
    (h1 : d.i2cIsInitialized w.bus = (true, s1))
    (h2 : d.i2cInit s1 = (true, s2))
    (h3 : d.i2cWrite LTC2943_I2C_ADDRESS LTC2943_CONTROL_REG 8 s2 = (true, s3))
    (h4 : d.i2cRead LTC2943_I2C_ADDRESS LTC2943_CONTROL_REG 8 s3 = ((true, b), s4)) :
    (0 ≤ handle_adc_mode b →
      (get_adc_mode d w).1 = 0 ∧
      (get_adc_mode d w).2.lt2943.adc_mode = handle_adc_mode b) ∧
    ((∀ p ∈ chip_adc_modes, b &&& p = 0) → (get_adc_mode d w).1 = -1) ∧
    ((get_adc_mode d w).1 = 0 ↔ 0 ≤ handle_adc_mode b) := by
  have hret : (get_adc_mode d w).1 = if handle_adc_mode b < 0 then -1 else 0 := by
    simp only [get_adc_mode, call_i2cIsInitialized, call_i2cInit, call_i2cWrite, call_i2cRead,
      h1, h2, h3, h4, Nat.mod_eq_of_lt hb, Bool.not_true, Bool.false_eq_true, if_false]
    split <;> simp [end_label_fst]
  have hmode : (get_adc_mode d w).2.lt2943.adc_mode = handle_adc_mode b := by
    simp only [get_adc_mode, call_i2cIsInitialized, call_i2cInit, call_i2cWrite, call_i2cRead,
      h1, h2, h3, h4, Nat.mod_eq_of_lt hb, Bool.not_true, Bool.false_eq_true, if_false]
    split <;> simp [end_label_lt2943]
  refine ⟨fun h => ⟨?_, hmode⟩, fun h => ?_, ?_⟩
  · rw [hret, if_neg (not_lt.mpr h)]
  · have hneg : handle_adc_mode b = -1 := by
      have h0 := h 0xC0 (by simp [chip_adc_modes, LTC2943_AUTOMATIC_MODE])
      have h1 := h 0x80 (by simp [chip_adc_modes, LTC2943_SCAN_MODE])
      have h2 := h 0x40 (by simp [chip_adc_modes, LTC2943_MANUAL_MODE])
      simp [handle_adc_mode, handle_adc_mode_loop, chip_adc_modes, adc_modes.toNat,
        LTC2943_AUTOMATIC_MODE, LTC2943_SCAN_MODE, LTC2943_MANUAL_MODE, LTC2943_SLEEP_MODE,
        h0, h1, h2]
    rw [hret, hneg]; rfl
  · rw [hret]
    split <;> omega

/-- Witness for C7: a bus on which every call succeeds and the control register reads `0xC0`. -/
theorem get_adc_mode_end_to_end_witness :
    (get_adc_mode scriptedDriver (scriptedWorld scriptReadAuto sleepingCache)).1 = 0 ∧
    (get_adc_mode scriptedDriver (scriptedWorld scriptReadAuto sleepingCache)).2.lt2943.adc_mode
      = handle_adc_mode 0xC0 :=
  (get_adc_mode_end_to_end scriptedDriver (scriptedWorld scriptReadAuto sleepingCache)
    (scriptReadAuto.drop 1) (scriptReadAuto.drop 2) (scriptReadAuto.drop 3)
    (scriptReadAuto.drop 4) 0xC0 (by decide) rfl rfl rfl rfl).1 (by decide)

/-- C8: for each of the four modes, every prior cache and every behaviour of
the bus, `set_adc_mode` returns with the cache `lt2943` (fields `adc_mode`,
`temp_alert`, `volt_alert`) exactly as it was before the call; the two alert
queries leave `adc_mode` unchanged as well, so among the operations only
`get_adc_mode` writes the cached mode. -/
theorem set_adc_mode_preserves_cache (d : I2cDriver σ) (w : World σ) (mode : adc_modes)
    (hm : mode ≠ adc_modes.MODE_CNT) :
    (∃ r, set_adc_mode d mode w = some r ∧
      r.2.lt2943.adc_mode = w.lt2943.adc_mode ∧
      r.2.lt2943.temp_alert = w.lt2943.temp_alert ∧
      r.2.lt2943.volt_alert = w.lt2943.volt_alert) ∧
    (get_temp_alert_pend d w).2.lt2943.adc_mode = w.lt2943.adc_mode ∧
    (get_vol_alert_pend d w).2.lt2943.adc_mode = w.lt2943.adc_mode := by
  refine ⟨?_, ?_, ?_⟩
  · obtain ⟨v, hv⟩ : ∃ v, chip_adc_modes[mode.toNat]? = some v := by
      cases mode <;> first | exact absurd rfl hm | exact ⟨_, rfl⟩
    simp only [set_adc_mode, hv]
    split
    · exact ⟨_, rfl, by simp [end_label_lt2943, call_i2cIsInitialized]⟩
    · split
      · exact ⟨_, rfl, by simp [end_label_lt2943, call_i2cIsInitialized, call_i2cInit]⟩
      · exact ⟨_, rfl, by
          simp [end_label_lt2943, call_i2cIsInitialized, call_i2cInit, call_i2cWrite]⟩
  · simp only [get_temp_alert_pend]
    split_ifs <;>
      simp [end_label_lt2943, call_i2cIsInitialized, call_i2cInit, call_i2cWrite, call_i2cRead]
  · simp only [get_vol_alert_pend]
    split_ifs <;>
      simp [end_label_lt2943, call_i2cIsInitialized, call_i2cInit, call_i2cWrite, call_i2cRead]

/-- Witness for C8: `set_adc_mode(AUTO_MODE)` on a bus where every call succeeds. -/
theorem set_adc_mode_preserves_cache_witness :
    adc_modes.AUTO_MODE ≠ adc_modes.MODE_CNT ∧
    ((∃ r, set_adc_mode scriptedDriver adc_modes.AUTO_MODE
          (scriptedWorld scriptAllTrue sleepingCache) = some r ∧
        r.2.lt2943.adc_mode = 3 ∧ r.2.lt2943.temp_alert = 0 ∧ r.2.lt2943.volt_alert = 0) ∧
      (get_temp_alert_pend scriptedDriver
        (scriptedWorld scriptAllTrue sleepingCache)).2.lt2943.adc_mode = 3 ∧
      (get_vol_alert_pend scriptedDriver
        (scriptedWorld scriptAllTrue sleepingCache)).2.lt2943.adc_mode = 3) :=
  ⟨by decide, set_adc_mode_preserves_cache scriptedDriver
    (scriptedWorld scriptAllTrue sleepingCache) adc_modes.AUTO_MODE (by decide)⟩

/-- The code at `end:` leaves the bus in the state its calls produce. -/
theorem end_label_bus (d : I2cDriver σ) (ret : Int) (w : World σ) :
    (end_label d ret w).2.bus =
      if (d.i2cIsInitialized w.bus).1 then (d.i2cDeinit (d.i2cIsInitialized w.bus).2).2
      else (d.i2cIsInitialized w.bus).2 := by
  simp only [end_label, call_i2cIsInitialized, call_i2cDeinit]
  split <;> rfl

/-- C9: for a mode whose table entry is `enc`, when the acquisition test passes
and both writes succeed, `set_adc_mode` returns 0 and the calls it makes are,
in this order, `i2cIsInitialized`, `i2cInit`, the write of `0x01` and the
write of `enc`, both to address `0x64` with `dataSize` 8, followed only by the
check at `end:` and its `i2cDeinit`; the bus is left in the state the driver
reaches through these calls, the cache is untouched, and the register
transactions are exactly the two writes and no read. The table gives `0xC0`,
`0x80`, `0x40`, `0x00` for Automatic, Scan, Manual, Sleep, four pairwise
distinct bytes. -/
theorem set_adc_mode_wire_contract (d : I2cDriver σ) (w : World σ) (mode : adc_modes)
    (enc : Nat) (s1 s2 s3 s4 : σ)
    (henc : chip_adc_modes[mode.toNat]? = some enc)
    (h1 : d.i2cIsInitialized w.bus = (true, s1))
    (h2 : d.i2cInit s1 = (true, s2))
    (h3 : d.i2cWrite LTC2943_I2C_ADDRESS LTC2943_CONTROL_REG 8 s2 = (true, s3))
    (h4 : d.i2cWrite LTC2943_I2C_ADDRESS enc 8 s3 = (true, s4)) :
    (∃ r, set_adc_mode d mode w = some r ∧ r.1 = 0 ∧
      callsSince w r.2 =
        [Call.i2cIsInitialized true, Call.i2cInit true,
          Call.i2cWrite 0x64 0x01 8 true, Call.i2cWrite 0x64 enc 8 true] ++
        (if (d.i2cIsInitialized s4).1 then
          [Call.i2cIsInitialized true, Call.i2cDeinit (d.i2cDeinit (d.i2cIsInitialized s4).2).1]
        else [Call.i2cIsInitialized false]) ∧
      r.2.bus =
        (if (d.i2cIsInitialized s4).1 then (d.i2cDeinit (d.i2cIsInitialized s4).2).2
        else (d.i2cIsInitialized s4).2) ∧
      r.2.lt2943 = w.lt2943 ∧
      (callsSince w r.2).filter Call.isTransaction =
        [Call.i2cWrite 0x64 0x01 8 true, Call.i2cWrite 0x64 enc 8 true]) ∧
    chip_adc_modes[adc_modes.AUTO_MODE.toNat]? = some 0xC0 ∧
    chip_adc_modes[adc_modes.SCAN_MODE.toNat]? = some 0x80 ∧
    chip_adc_modes[adc_modes.MAN_MODE.toNat]? = some 0x40 ∧
    chip_adc_modes[adc_modes.SLEEP_MODE.toNat]? = some 0x00 ∧
    chip_adc_modes.Nodup := by
  refine ⟨?_, by decide, by decide, by decide, by decide, by decide⟩
  have hlt : enc < 256 := by
    cases mode <;> simp [chip_adc_modes, adc_modes.toNat, LTC2943_AUTOMATIC_MODE,
      LTC2943_SCAN_MODE, LTC2943_MANUAL_MODE, LTC2943_SLEEP_MODE] at henc <;> omega
  have hset : set_adc_mode d mode w = some (end_label d 0
      { bus := s4,
        trace := w.trace ++ [Call.i2cIsInitialized true] ++ [Call.i2cInit true] ++
          [Call.i2cWrite LTC2943_I2C_ADDRESS LTC2943_CONTROL_REG 8 true] ++
          [Call.i2cWrite LTC2943_I2C_ADDRESS enc 8 true],
        lt2943 := w.lt2943 }) := by
    simp only [set_adc_mode, call_i2cIsInitialized, call_i2cInit, call_i2cWrite, henc,
      h1, h2, h3, h4, Nat.mod_eq_of_lt hlt, Bool.not_true, Bool.false_eq_true, if_false]
  refine ⟨_, hset, end_label_fst _ _ _, ?_, end_label_bus _ _ _, end_label_lt2943 _ _ _, ?_⟩
  · simp only [callsSince, end_label_trace]
    split <;> simp [LTC2943_I2C_ADDRESS, LTC2943_CONTROL_REG]
  · simp only [callsSince, end_label_trace]
    split <;>
      simp [Call.isTransaction, LTC2943_I2C_ADDRESS, LTC2943_CONTROL_REG, List.filter]

/-- Witness for C9: `set_adc_mode(SCAN_MODE)` on a bus where every call succeeds. -/
theorem set_adc_mode_wire_contract_witness :
    ∃ r, set_adc_mode scriptedDriver adc_modes.SCAN_MODE
        (scriptedWorld scriptAllTrue sleepingCache) = some r ∧ r.1 = 0 ∧
      callsSince (scriptedWorld scriptAllTrue sleepingCache) r.2 =
        [Call.i2cIsInitialized true, Call.i2cInit true,
          Call.i2cWrite 0x64 0x01 8 true, Call.i2cWrite 0x64 0x80 8 true,
          Call.i2cIsInitialized true, Call.i2cDeinit true] ∧
      r.2.bus = [] ∧
      r.2.lt2943 = sleepingCache ∧
      (callsSince (scriptedWorld scriptAllTrue sleepingCache) r.2).filter Call.isTransaction =
        [Call.i2cWrite 0x64 0x01 8 true, Call.i2cWrite 0x64 0x80 8 true] :=
  (set_adc_mode_wire_contract scriptedDriver (scriptedWorld scriptAllTrue sleepingCache)
    adc_modes.SCAN_MODE 0x80 (scriptAllTrue.drop 1) (scriptAllTrue.drop 2)
    (scriptAllTrue.drop 3) (scriptAllTrue.drop 4) rfl rfl rfl rfl rfl).1

/-! ## Release of the bus -/

/-- The calls made at `end:` satisfy the release discipline on their own. -/
theorem releasedByEndCheck_end (r r' : Bool) :
    releasedByEndCheck
      (if r then [Call.i2cIsInitialized true, Call.i2cDeinit r']
       else [Call.i2cIsInitialized false]) := by
  cases r <;> simp [releasedByEndCheck, lastIsInitialized, deinitCount, Call.isDeinit]

/-- A call other than `i2cDeinit` in front of a trace that ends in an
`i2cIsInitialized` check keeps the release discipline. -/
theorem releasedByEndCheck_cons (c : Call) (t : List Call) (hc : c.isDeinit = false)
    (ht : releasedByEndCheck t) : releasedByEndCheck (c :: t) := by
  unfold releasedByEndCheck at *
  rcases ht with ⟨h1, h2⟩ | ⟨h1, h2⟩
  · left
    refine ⟨by simp [lastIsInitialized, h1], ?_⟩
    simpa [deinitCount, List.countP_cons, hc] using h2
  · right
    refine ⟨by simp [lastIsInitialized, h1], ?_⟩
    simpa [deinitCount, List.countP_cons, hc] using h2

/-- A run extended by one more call of the driver is a run. -/
theorem isRun_snoc (d : I2cDriver σ) (t : List Call) (c : Call) (s m s' : σ)
    (ht : isRun d t s m) (hc : c.madeBy d m s') : isRun d (t ++ [c]) s s' := by
  induction t generalizing s with
  | nil =>
    simp only [isRun] at ht
    subst ht
    exact ⟨s', hc, rfl⟩
  | cons a t ih =>
    obtain ⟨k, hk, hrest⟩ := ht
    exact ⟨k, hk, ih k hrest⟩

/-- Nothing has been called yet. -/
theorem noDeinitRun_refl (d : I2cDriver σ) (w : World σ) : noDeinitRun d w w :=
  ⟨[], by simp, rfl, rfl⟩

/-- One more call that is not `i2cDeinit`, really made by the driver. -/
theorem noDeinitRun_snoc (d : I2cDriver σ) (w wb wc : World σ) (c : Call)
    (hc : c.isDeinit = false) (ht : wc.trace = wb.trace ++ [c])
    (hm : c.madeBy d wb.bus wc.bus) (h : noDeinitRun d w wb) : noDeinitRun d w wc := by
  obtain ⟨body, hb, hn, hr⟩ := h
  refine ⟨body ++ [c], by rw [ht, hb, List.append_assoc], ?_, isRun_snoc d body c _ _ _ hr hm⟩
  simpa [deinitCount, List.countP_append, hc] using hn

/-- A call of `i2cIsInitialized` extends a run without `i2cDeinit`. -/
theorem noDeinitRun_isInitialized (d : I2cDriver σ) (w wb : World σ)
    (h : noDeinitRun d w wb) : noDeinitRun d w (call_i2cIsInitialized d wb).2 :=
  noDeinitRun_snoc d w wb _ (Call.i2cIsInitialized (d.i2cIsInitialized wb.bus).1) rfl rfl rfl h

/-- A call of `i2cInit` extends a run without `i2cDeinit`. -/
theorem noDeinitRun_init (d : I2cDriver σ) (w wb : World σ)
    (h : noDeinitRun d w wb) : noDeinitRun d w (call_i2cInit d wb).2 :=
  noDeinitRun_snoc d w wb _ (Call.i2cInit (d.i2cInit wb.bus).1) rfl rfl rfl h

/-- A call of `i2cWrite` extends a run without `i2cDeinit`. -/
theorem noDeinitRun_write (d : I2cDriver σ) (w wb : World σ) (a src n : Nat)
    (h : noDeinitRun d w wb) : noDeinitRun d w (call_i2cWrite d a src n wb).2 :=
  noDeinitRun_snoc d w wb _ (Call.i2cWrite a src n (d.i2cWrite a src n wb.bus).1) rfl rfl rfl h

/-- A call of `i2cRead` extends a run without `i2cDeinit`. -/
theorem noDeinitRun_read (d : I2cDriver σ) (w wb : World σ) (a buf n : Nat)
    (h : noDeinitRun d w wb) : noDeinitRun d w (call_i2cRead d a buf n wb).2 :=
  noDeinitRun_snoc d w wb _
    (Call.i2cRead a n (d.i2cRead a buf n wb.bus).1.1 ((d.i2cRead a buf n wb.bus).1.2 % 256))
    rfl rfl ⟨buf, rfl, rfl, rfl⟩ h

/-- Writing the cache changes neither the trace nor the bus. -/
theorem noDeinitRun_cache (d : I2cDriver σ) (w wb : World σ) (c : lt2943)
    (h : noDeinitRun d w wb) : noDeinitRun d w { wb with lt2943 := c } :=
  h

/-- The code at `end:`, reached after a run without `i2cDeinit`, ends the
operation with the end check. -/
theorem endsWithEndCheck_end_label (d : I2cDriver σ) (ret : Int) (w wb : World σ)
    (h : noDeinitRun d w wb) : endsWithEndCheck d w (end_label d ret wb).2 := by
  obtain ⟨body, hb, hn, hr⟩ := h
  refine ⟨body, wb.bus, hn, hr, ?_⟩
  cases hi : (d.i2cIsInitialized wb.bus).1
  · left
    refine ⟨rfl, ?_, ?_⟩
    · simp [callsSince, end_label_trace, hi, hb]
    · simp [end_label, call_i2cIsInitialized, hi]
  · right
    refine ⟨rfl, ?_, ?_⟩
    · simp [callsSince, end_label_trace, hi, hb]
    · simp [end_label, call_i2cIsInitialized, call_i2cDeinit, hi]

/-- The operation `get_adc_mode` ends with the end check. -/
theorem get_adc_mode_ends_with_end_check (d : I2cDriver σ) (w : World σ) :
    endsWithEndCheck d w (get_adc_mode d w).2 := by
  simp only [get_adc_mode]
  split_ifs <;> refine endsWithEndCheck_end_label d _ w _ ?_ <;>
    (repeat (first
      | exact noDeinitRun_refl d w
      | refine noDeinitRun_cache d w _ _ ?_
      | refine noDeinitRun_read d w _ _ _ _ ?_
      | refine noDeinitRun_write d w _ _ _ _ ?_
      | refine noDeinitRun_init d w _ ?_
      | refine noDeinitRun_isInitialized d w _ ?_))

/-- The operation `get_temp_alert_pend` ends with the end check. -/
theorem get_temp_alert_pend_ends_with_end_check (d : I2cDriver σ) (w : World σ) :
    endsWithEndCheck d w (get_temp_alert_pend d w).2 := by
  simp only [get_temp_alert_pend]
  split_ifs <;> refine endsWithEndCheck_end_label d _ w _ ?_ <;>
    (repeat (first
      | exact noDeinitRun_refl d w
      | refine noDeinitRun_cache d w _ _ ?_
      | refine noDeinitRun_read d w _ _ _ _ ?_
      | refine noDeinitRun_write d w _ _ _ _ ?_
      | refine noDeinitRun_init d w _ ?_
      | refine noDeinitRun_isInitialized d w _ ?_))

/-- The operation `get_vol_alert_pend` ends with the end check. -/
theorem get_vol_alert_pend_ends_with_end_check (d : I2cDriver σ) (w : World σ) :
    endsWithEndCheck d w (get_vol_alert_pend d w).2 := by
  simp only [get_vol_alert_pend]
  split_ifs <;> refine endsWithEndCheck_end_label d _ w _ ?_ <;>
    (repeat (first
      | exact noDeinitRun_refl d w
      | refine noDeinitRun_cache d w _ _ ?_
      | refine noDeinitRun_read d w _ _ _ _ ?_
      | refine noDeinitRun_write d w _ _ _ _ ?_
      | refine noDeinitRun_init d w _ ?_
      | refine noDeinitRun_isInitialized d w _ ?_))

/-- For a mode of the table, `set_adc_mode` returns and ends with the end check. -/
theorem set_adc_mode_ends_with_end_check (d : I2cDriver σ) (w : World σ) (mode : adc_modes)
    (hm : mode ≠ adc_modes.MODE_CNT) :
    ∃ r, set_adc_mode d mode w = some r ∧ endsWithEndCheck d w r.2 := by
  obtain ⟨v, hv⟩ : ∃ v, chip_adc_modes[mode.toNat]? = some v := by
    cases mode <;> first | exact absurd rfl hm | exact ⟨_, rfl⟩
  simp only [set_adc_mode, hv]
  split_ifs <;> refine ⟨_, rfl, endsWithEndCheck_end_label d _ w _ ?_⟩ <;>
    (repeat (first
      | exact noDeinitRun_refl d w
      | refine noDeinitRun_write d w _ _ _ _ ?_
      | refine noDeinitRun_init d w _ ?_
      | refine noDeinitRun_isInitialized d w _ ?_))

/-- A run without `i2cDeinit` in front of calls that satisfy the release
discipline keeps it. -/
theorem releasedByEndCheck_append (body tail : List Call) (hn : deinitCount body = 0)
    (ht : releasedByEndCheck tail) : releasedByEndCheck (body ++ tail) := by
  induction body with
  | nil => simpa using ht
  | cons c body ih =>
    have hc : c.isDeinit = false := by
      cases h : c.isDeinit
      · rfl
      · simp [deinitCount, List.countP_cons, h] at hn
    have hbody : deinitCount body = 0 := by
      simpa [deinitCount, List.countP_cons, hc] using hn
    exact releasedByEndCheck_cons c (body ++ tail) hc (ih hbody)

/-- An operation that ends with the end check calls `i2cDeinit` once when the
last `i2cIsInitialized` answer is true and not at all when it is false. -/
theorem releasedByEndCheck_of_endsWithEndCheck (d : I2cDriver σ) (w w' : World σ)
    (h : endsWithEndCheck d w w') : releasedByEndCheck (callsSince w w') := by
  obtain ⟨body, s, hn, _, ⟨_, ht, _⟩ | ⟨_, ht, _⟩⟩ := h
  · rw [ht]
    exact releasedByEndCheck_append body _ hn (releasedByEndCheck_end false false)
  · rw [ht]
    exact releasedByEndCheck_append body _ hn (releasedByEndCheck_end true _)

/-- C5 as the code has it: for each of the four operations and every behaviour
of the bus, the operation returns and ends with the check at `end:`. Its calls
are calls the driver really made, none of them `i2cDeinit`, followed by the
check `i2cIsInitialized()` and, exactly when that check answers true, by one
call of `i2cDeinit()`, after which nothing is called and the bus is left as
these last calls leave it; so `i2cDeinit` is called exactly once when the
check answers true and not at all when it answers false. -/
theorem deinit_once_iff_initialized_at_end (d : I2cDriver σ) (w : World σ)
    (mode : adc_modes) (hm : mode ≠ adc_modes.MODE_CNT) :
    (endsWithEndCheck d w (get_adc_mode d w).2 ∧
      releasedByEndCheck (callsSince w (get_adc_mode d w).2)) ∧
    (endsWithEndCheck d w (get_temp_alert_pend d w).2 ∧
      releasedByEndCheck (callsSince w (get_temp_alert_pend d w).2)) ∧
    (endsWithEndCheck d w (get_vol_alert_pend d w).2 ∧
      releasedByEndCheck (callsSince w (get_vol_alert_pend d w).2)) ∧
    ∃ r, set_adc_mode d mode w = some r ∧ endsWithEndCheck d w r.2 ∧
      releasedByEndCheck (callsSince w r.2) := by
  refine ⟨⟨get_adc_mode_ends_with_end_check d w, ?_⟩,
    ⟨get_temp_alert_pend_ends_with_end_check d w, ?_⟩,
    ⟨get_vol_alert_pend_ends_with_end_check d w, ?_⟩, ?_⟩
  · exact releasedByEndCheck_of_endsWithEndCheck d w _ (get_adc_mode_ends_with_end_check d w)
  · exact releasedByEndCheck_of_endsWithEndCheck d w _
      (get_temp_alert_pend_ends_with_end_check d w)
  · exact releasedByEndCheck_of_endsWithEndCheck d w _
      (get_vol_alert_pend_ends_with_end_check d w)
  · obtain ⟨r, hr, he⟩ := set_adc_mode_ends_with_end_check d w mode hm
    exact ⟨r, hr, he, releasedByEndCheck_of_endsWithEndCheck d w _ he⟩

/-- Witness for C5 as the code has it: the four operations on a simulated bus
that is initialised on entry. -/
theorem deinit_once_iff_initialized_at_end_witness :
    adc_modes.MAN_MODE ≠ adc_modes.MODE_CNT ∧
    ((endsWithEndCheck simulatedDriver (simulatedWorld ⟨true, 0x12⟩ sleepingCache)
        (get_adc_mode simulatedDriver (simulatedWorld ⟨true, 0x12⟩ sleepingCache)).2 ∧
      releasedByEndCheck (callsSince (simulatedWorld ⟨true, 0x12⟩ sleepingCache)
        (get_adc_mode simulatedDriver (simulatedWorld ⟨true, 0x12⟩ sleepingCache)).2)) ∧
    (endsWithEndCheck simulatedDriver (simulatedWorld ⟨true, 0x12⟩ sleepingCache)
        (get_temp_alert_pend simulatedDriver (simulatedWorld ⟨true, 0x12⟩ sleepingCache)).2 ∧
      releasedByEndCheck (callsSince (simulatedWorld ⟨true, 0x12⟩ sleepingCache)
        (get_temp_alert_pend simulatedDriver
          (simulatedWorld ⟨true, 0x12⟩ sleepingCache)).2)) ∧
    (endsWithEndCheck simulatedDriver (simulatedWorld ⟨true, 0x12⟩ sleepingCache)
        (get_vol_alert_pend simulatedDriver (simulatedWorld ⟨true, 0x12⟩ sleepingCache)).2 ∧
      releasedByEndCheck (callsSince (simulatedWorld ⟨true, 0x12⟩ sleepingCache)
        (get_vol_alert_pend simulatedDriver
          (simulatedWorld ⟨true, 0x12⟩ sleepingCache)).2)) ∧
    ∃ r, set_adc_mode simulatedDriver adc_modes.MAN_MODE
        (simulatedWorld ⟨true, 0x12⟩ sleepingCache) = some r ∧
      endsWithEndCheck simulatedDriver (simulatedWorld ⟨true, 0x12⟩ sleepingCache) r.2 ∧
      releasedByEndCheck (callsSince (simulatedWorld ⟨true, 0x12⟩ sleepingCache) r.2)) :=
  ⟨by decide, deinit_once_iff_initialized_at_end simulatedDriver
    (simulatedWorld ⟨true, 0x12⟩ sleepingCache) adc_modes.MAN_MODE (by decide)⟩

/-- C5 as stated fails: on a simulated bus that is not initialised on entry,
`get_temp_alert_pend` returns `-1` having called `i2cIsInitialized` twice and
`i2cDeinit` not at all, so `i2cDeinit` is not invoked exactly once. -/
theorem deinit_not_called_when_uninitialized :
    (get_temp_alert_pend simulatedDriver (simulatedWorld ⟨false, 0x12⟩ sleepingCache)).1 = -1 ∧
    (get_temp_alert_pend simulatedDriver (simulatedWorld ⟨false, 0x12⟩ sleepingCache)).2.trace =
      [Call.i2cIsInitialized false, Call.i2cIsInitialized false] ∧
    ¬ deinitCount (callsSince (simulatedWorld ⟨false, 0x12⟩ sleepingCache)
      (get_temp_alert_pend simulatedDriver
        (simulatedWorld ⟨false, 0x12⟩ sleepingCache)).2) = 1 := by
  decide

/-! ## Behaviour on failing transactions, on an uninitialised bus, and at construction -/

/-- C4, evaluated on the code: with both writes failing `set_adc_mode` returns
the success code 0, and with the status read failing `get_temp_alert_pend` and
`get_vol_alert_pend` return the alert value 0; each makes the failing calls
shown. `get_adc_mode`, under the same failing read, returns `-1`. -/
theorem transaction_failure_not_surfaced :
    (∃ r, set_adc_mode scriptedDriver adc_modes.AUTO_MODE
        (scriptedWorld scriptWritesFail sleepingCache) = some r ∧ r.1 = 0 ∧
      r.2.trace = [Call.i2cIsInitialized true, Call.i2cInit true,
        Call.i2cWrite 0x64 0x01 8 false, Call.i2cWrite 0x64 0xC0 8 false,
        Call.i2cIsInitialized true, Call.i2cDeinit true]) ∧
    (get_temp_alert_pend scriptedDriver (scriptedWorld scriptReadFails sleepingCache)).1 = 0 ∧
    (get_temp_alert_pend scriptedDriver (scriptedWorld scriptReadFails sleepingCache)).2.trace =
      [Call.i2cIsInitialized true, Call.i2cInit true, Call.i2cWrite 0x64 0x00 8 true,
        Call.i2cRead 0x64 8 false 0x00, Call.i2cIsInitialized true, Call.i2cDeinit true] ∧
    (get_vol_alert_pend scriptedDriver (scriptedWorld scriptReadFails sleepingCache)).1 = 0 ∧
    (get_vol_alert_pend scriptedDriver (scriptedWorld scriptReadFails sleepingCache)).2.trace =
      [Call.i2cIsInitialized true, Call.i2cInit true, Call.i2cWrite 0x64 0x00 8 true,
        Call.i2cRead 0x64 8 false 0x00, Call.i2cIsInitialized true, Call.i2cDeinit true] ∧
    (get_adc_mode scriptedDriver (scriptedWorld scriptReadFails sleepingCache)).1 = -1 := by
  refine ⟨⟨_, rfl, by decide, by decide⟩, by decide, by decide, by decide, by decide, by decide⟩

/-- C6, evaluated on the code: on a simulated bus that is not initialised on
entry (and whose `i2cInit` would succeed), each of the four operations returns
`-1` having made no call but two `i2cIsInitialized` checks, so `i2cInit` is not
called and no transaction is made; on a bus that is already initialised on
entry, `get_adc_mode` calls `i2cInit` all the same. -/
theorem acquisition_test_inverted :
    (get_adc_mode simulatedDriver (simulatedWorld ⟨false, 0xC0⟩ sleepingCache)).1 = -1 ∧
    (get_adc_mode simulatedDriver (simulatedWorld ⟨false, 0xC0⟩ sleepingCache)).2.trace =
      [Call.i2cIsInitialized false, Call.i2cIsInitialized false] ∧
    (get_temp_alert_pend simulatedDriver (simulatedWorld ⟨false, 0xC0⟩ sleepingCache)).1 = -1 ∧
    (get_temp_alert_pend simulatedDriver (simulatedWorld ⟨false, 0xC0⟩ sleepingCache)).2.trace =
      [Call.i2cIsInitialized false, Call.i2cIsInitialized false] ∧
    (get_vol_alert_pend simulatedDriver (simulatedWorld ⟨false, 0xC0⟩ sleepingCache)).1 = -1 ∧
    (get_vol_alert_pend simulatedDriver (simulatedWorld ⟨false, 0xC0⟩ sleepingCache)).2.trace =
      [Call.i2cIsInitialized false, Call.i2cIsInitialized false] ∧
    (∃ r, set_adc_mode simulatedDriver adc_modes.AUTO_MODE
        (simulatedWorld ⟨false, 0xC0⟩ sleepingCache) = some r ∧ r.1 = -1 ∧
      r.2.trace = [Call.i2cIsInitialized false, Call.i2cIsInitialized false]) ∧
    (simulatedDriver.i2cInit ⟨false, 0xC0⟩).1 = true ∧
    (get_adc_mode simulatedDriver (simulatedWorld ⟨true, 0xC0⟩ sleepingCache)).2.trace =
      [Call.i2cIsInitialized true, Call.i2cInit true, Call.i2cWrite 0x64 0x01 8 true,
        Call.i2cRead 0x64 8 true 0xC0, Call.i2cIsInitialized true, Call.i2cDeinit true] := by
  refine ⟨by decide, by decide, by decide, by decide, by decide, by decide,
    ⟨_, rfl, by decide, by decide⟩, by decide, by decide⟩

/-- C10, evaluated on the code: in a construction where all twelve bus calls
succeed, the byte written before the constructor's own read is `0x01`, the
address of the control register, not `0x00`; both cached flags then hold the
temperature-bit test of the byte that read delivered (`0x12`, giving 1). -/
theorem constructor_reads_control_register :
    (lt2943_api scriptedDriver (scriptedWorld scriptConstruction sleepingCache)).1 = 0 ∧
    (lt2943_api scriptedDriver (scriptedWorld scriptConstruction sleepingCache)).2.trace =
      [Call.i2cIsInitialized true, Call.i2cInit true,
        Call.i2cIsInitialized true, Call.i2cInit true, Call.i2cWrite 0x64 0x01 8 true,
        Call.i2cRead 0x64 8 true 0xC0, Call.i2cIsInitialized true, Call.i2cDeinit true,
        Call.i2cWrite 0x64 0x01 8 true, Call.i2cRead 0x64 8 true 0x12,
        Call.i2cIsInitialized true, Call.i2cDeinit true] ∧
    LTC2943_CONTROL_REG = 0x01 ∧ LTC2943_STATUS_REG = 0x00 ∧
    (lt2943_api scriptedDriver (scriptedWorld scriptConstruction sleepingCache)).2.lt2943 =
      { adc_mode := 0, temp_alert := handle_temp_alert 0x12,
        volt_alert := handle_temp_alert 0x12 } := by
  decide

end Ltc2943
